import Mathlib

/-!
Verification of the shopping-cart state container of the repository
(Redux Toolkit `cartSlice` + store + consuming components).

The repository contains several concrete cart slices:

* `MiniCart` embeds the demo slice of `src/unnamed/part_009`
  (`cartSlice.js` with `clearCart` and `removeItem`, items without a
  quantity field, `amount` maintained by the reducers themselves).
* `QtyCart` embeds the `increase` / `decrease` reducers quoted in
  `Notes1.1/ReactRTK/3.1.1 Immer.md` (lines 42-45) and
  `3.1.2 Immer.md` (lines 7-12): each cart item carries a per-item
  quantity named `amount`, the reducer `find`s the first item with the
  given id and mutates its `amount`.  A missing id makes `find` return
  `undefined` and the subsequent field update throws a TypeError; we
  model that outcome as `Option.none`.
* `ManualCart` embeds the hand-written reducer of
  `Notes1.1/ReactRTK/2.1.2 Final how reducer works.md` (lines 161-169),
  whose fall-through branch returns the state unchanged for every
  unrecognized action type.
* `UserSlice` embeds the `extraReducers` of
  `Notes1.1/ReactRTK/3.1.3 createAsyncThunk and extraReducers.md`
  (lines 107-120): the `rejected` handler clears `isLoading`, records
  the error and leaves the loaded collection untouched.
* `Cart` models the application's own `features/cart/cartSlice.js`.
  That file is imported by `src/starter/src/store.js` and by the App
  component (`src/unnamed/part_014`: `calculateTotals`, `getCartItems`,
  `isLoading`) but is absent from the sources, so its reducers are
  modelled from the spec (each such definition says so in its doc
  comment).

JavaScript numbers are modelled as `Int` (quantities may go negative,
which is exactly one of the points at issue).  Reducers are translated
as pure state-to-state functions, mirroring what Immer produces from
the mutation-style bodies.
-/

namespace MiniCart

/-- Cart item of the `part_009` demo slice: `{ id, title, price }`
(these items carry no quantity field). -/
structure CartItem where
  id : Int
  title : String
  price : Int
deriving Repr, DecidableEq

/-- State of the `part_009` demo slice: `{ cartItems, amount }`. -/
structure CartState where
  cartItems : List CartItem
  amount : Int
deriving Repr, DecidableEq

/-- `initialState` of `part_009` lines 56-62: two items, `amount: 2`. -/
def initialState : CartState :=
  { cartItems := [ { id := 1, title := "Laptop", price := 999 },
                   { id := 2, title := "Phone", price := 499 } ],
    amount := 2 }

/-- `clearCart` of `part_009` lines 68-71:
`state.cartItems = []; state.amount = 0;`. -/
def clearCart (s : CartState) : CartState :=
  { s with cartItems := [], amount := 0 }

/-- `removeItem` of `part_009` lines 72-77:
`state.cartItems = state.cartItems.filter(item => item.id !== itemId);`
`state.amount = state.cartItems.length;` (the length of the new,
already filtered array). -/
def removeItem (itemId : Int) (s : CartState) : CartState :=
  let newItems := s.cartItems.filter (fun item => item.id != itemId)
  { s with cartItems := newItems, amount := (newItems.length : Int) }

end MiniCart

namespace QtyCart

/-- Cart item as used by the `increase` / `decrease` reducers of the
Immer notes: the per-item quantity is the field named `amount`
(`item.amount += 1`, `cartItem.amount = cartItem.amount - 1`).  Only
`id` and `amount` are touched by those reducers. -/
structure CartItem where
  id : Int
  amount : Int
deriving Repr, DecidableEq

/-- The slice state seen by `increase` / `decrease`: `state.cartItems`. -/
structure CartState where
  cartItems : List CartItem
deriving Repr, DecidableEq

/-- `state.cartItems.find(i => i.id === id)` followed by mutating the
found item's `amount` by `d`: updates the FIRST item whose `id`
matches; `none` when no item matches — in the source, `find` then
returns `undefined` and the field update throws a TypeError. -/
def bumpFirst (d : Int) (itemId : Int) : List CartItem → Option (List CartItem)
  | [] => none
  | x :: xs =>
    if x.id = itemId then some ({ x with amount := x.amount + d } :: xs)
    else (bumpFirst d itemId xs).map (fun ys => x :: ys)

/-- `increase` of `3.1.1 Immer.md` lines 42-45:
`const item = state.cartItems.find(i => i.id === payload.id); item.amount += 1;`.
`none` models the TypeError raised when the id is absent. -/
def increase (itemId : Int) (s : CartState) : Option CartState :=
  (bumpFirst 1 itemId s.cartItems).map (fun l => { s with cartItems := l })

/-- `decrease` of `3.1.2 Immer.md` lines 7-12:
`const cartItem = state.cartItems.find(item => item.id === payload.id);`
`cartItem.amount = cartItem.amount - 1;`.
`none` models the TypeError raised when the id is absent. -/
def decrease (itemId : Int) (s : CartState) : Option CartState :=
  (bumpFirst (-1) itemId s.cartItems).map (fun l => { s with cartItems := l })

/-- Quantity (`amount`) of the first item with the given id, if any. -/
def firstAmount (itemId : Int) : List CartItem → Option Int
  | [] => none
  | x :: xs => if x.id = itemId then some x.amount else firstAmount itemId xs

end QtyCart

namespace ManualCart

/-- State of the hand-written reducer of
`2.1.2 Final how reducer works.md`: `const initialState = { amount: 0 }`. -/
structure State where
  amount : Int
deriving Repr, DecidableEq

/-- A plain string-tagged action object, `{ type: ... }`. -/
structure CAction where
  type : String
deriving Repr, DecidableEq

/-- `initialState` of the hand-written reducer. -/
def initialState : State := { amount := 0 }

/-- `cartReducer` of `2.1.2 Final how reducer works.md` lines 161-169:
`if (action.type === 'cart/increment') return { ...state, amount: state.amount + 1 };`
`return state;` — the fall-through returns the state unchanged. -/
def cartReducer (state : State) (action : CAction) : State :=
  if action.type = "cart/increment" then { state with amount := state.amount + 1 }
  else state

end ManualCart

namespace UserSlice

/-- State of the `extraReducers` example in
`3.1.3 createAsyncThunk and extraReducers.md`:
`{ users: [], isLoading: false, error: null }`.  The loaded records are
opaque to the handlers, modelled here as strings. -/
structure UState where
  users : List String
  isLoading : Bool
  error : Option String
deriving Repr, DecidableEq

/-- The `fetchUsers.rejected` case of the `extraReducers` (lines
107-120): `state.isLoading = false; state.error = action.payload;` —
`users` is not touched. -/
def fetchRejected (payload : String) (state : UState) : UState :=
  { state with isLoading := false, error := some payload }

end UserSlice

namespace Cart

/-- Cart item of the application's cart slice, per the spec's data
model: `id`, `title` (opaque), unit `price`, and `quantity`. -/
structure CartItem where
  id : Int
  title : String
  price : Int
  quantity : Int
deriving Repr, DecidableEq

/-- The application's cart state: `cartItems` (the field name used by
the consuming components `CartContainer.js` and the App of `part_014`),
`amount`, `total`, `isLoading`. -/
structure CartState where
  cartItems : List CartItem
  amount : Int
  total : Int
  isLoading : Bool
deriving Repr, DecidableEq

/-- Modelled from the spec: `initialState` of
`features/cart/cartSlice.js`, which is imported by
`src/starter/src/store.js` and by the App component (`part_014`) but is
absent from the sources.  Spec §3 Lifecycle: created once at process
start with `items = []`, `amount = 0`, `total = 0`, `isLoading = true`. -/
def initialState : CartState :=
  { cartItems := [], amount := 0, total := 0, isLoading := true }

/-- Modelled from the spec: `clearCart` of the missing cart slice —
`items := []`, `amount := 0` (spec §4.1; matches the in-source variants
of `part_009` and `1.5.1.2`). -/
def clearCart (s : CartState) : CartState :=
  { s with cartItems := [], amount := 0 }

/-- Modelled from the spec: `removeItem` of the missing cart slice —
removes the item whose id matches, a stable filter (spec §4.1). -/
def removeItem (itemId : Int) (s : CartState) : CartState :=
  { s with cartItems := s.cartItems.filter (fun item => item.id != itemId) }

/-- Modelled from the spec: `increase` of the missing cart slice —
the matching item's `quantity += 1`, no-op if the id is absent
(spec §4.1 and §7). -/
def increase (itemId : Int) (s : CartState) : CartState :=
  { s with cartItems := s.cartItems.map (fun item =>
      if item.id = itemId then { item with quantity := item.quantity + 1 } else item) }

/-- Modelled from the spec: `decrease` of the missing cart slice —
the matching item's `quantity -= 1`, floored at 0, no-op if the id is
absent (spec §4.1 and §7). -/
def decrease (itemId : Int) (s : CartState) : CartState :=
  { s with cartItems := s.cartItems.map (fun item =>
      if item.id = itemId then { item with quantity := max (item.quantity - 1) 0 } else item) }

/-- Sum of the items' quantities. -/
def sumQty (l : List CartItem) : Int := (l.map (fun item => item.quantity)).sum

/-- Sum of `price * quantity` over the items. -/
def sumTotal (l : List CartItem) : Int := (l.map (fun item => item.price * item.quantity)).sum

/-- Modelled from the spec: `calculateTotals` of the missing cart slice
— "recomputes `amount` and `total` from scratch by folding over
`items`" (spec §4.1). -/
def calculateTotals (s : CartState) : CartState :=
  let p := s.cartItems.foldl
    (fun acc item => (acc.1 + item.quantity, acc.2 + item.price * item.quantity))
    ((0 : Int), (0 : Int))
  { s with amount := p.1, total := p.2 }

/-- Modelled from the spec: `setLoading` — sets `isLoading`; the Async
Loader dispatches `setLoading(false)` on the rejected outcome
(spec §4.1-§4.2).  The in-source `extraReducers` example of `3.1.3`
(`UserSlice.fetchRejected`) follows the same pattern. -/
def setLoading (b : Bool) (s : CartState) : CartState :=
  { s with isLoading := b }

/-- Modelled from the spec: `itemsLoaded(newItems)` — `items := newItems`,
`isLoading := false`, the fulfilled outcome of the Async Loader
(spec §4.1-§4.2). -/
def itemsLoaded (newItems : List CartItem) (s : CartState) : CartState :=
  { s with cartItems := newItems, isLoading := false }

/-- The action vocabulary: the seven recognized transitions of spec
§4.1-§4.2, plus `unknown` for every other string-tagged action.  The
closed sum type models the string-tagged dispatch of the source. -/
inductive Action where
  | clearCart : Action
  | removeItem : Int → Action
  | increase : Int → Action
  | decrease : Int → Action
  | calculateTotals : Action
  | setLoading : Bool → Action
  | itemsLoaded : List CartItem → Action
  | unknown : String → Action
deriving Repr, DecidableEq

/-- Modelled from the spec: the generated slice reducer.  A
`createSlice` reducer matches the action tag against the defined case
reducers and returns the state unchanged for every other tag — stated
in-source in `1.0 Flow.md` lines 38-47 ("The reducer will do nothing
and return current state") and mirrored by the hand-written
`ManualCart.cartReducer`. -/
def cartReducer (action : Action) (s : CartState) : CartState :=
  match action with
  | Action.clearCart => clearCart s
  | Action.removeItem itemId => removeItem itemId s
  | Action.increase itemId => increase itemId s
  | Action.decrease itemId => decrease itemId s
  | Action.calculateTotals => calculateTotals s
  | Action.setLoading b => setLoading b s
  | Action.itemsLoaded l => itemsLoaded l s
  | Action.unknown _ => s

end Cart

theorem QtyCart.bumpFirst_none_of_absent (d itemId : Int) (l : List QtyCart.CartItem)
    (h : ∀ i ∈ l, i.id ≠ itemId) : QtyCart.bumpFirst d itemId l = none := by
  induction l with
  | nil => rfl
  | cons x xs ih =>
    have hx : x.id ≠ itemId := h x (List.mem_cons_self x xs)
    have hxs : ∀ i ∈ xs, i.id ≠ itemId := fun i hi => h i (List.mem_cons_of_mem x hi)
    simp [QtyCart.bumpFirst, hx, ih hxs]

theorem QtyCart.bumpFirst_firstAmount (d itemId : Int) (l l₂ : List QtyCart.CartItem) (q : Int)
    (hb : QtyCart.bumpFirst d itemId l = some l₂)
    (ha : QtyCart.firstAmount itemId l = some q) :
    QtyCart.firstAmount itemId l₂ = some (q + d) := by
  induction l generalizing l₂ with
  | nil => simp [QtyCart.bumpFirst] at hb
  | cons x xs ih =>
    by_cases hx : x.id = itemId
    · simp [QtyCart.bumpFirst, hx] at hb
      simp [QtyCart.firstAmount, hx] at ha
      subst hb
      simp [QtyCart.firstAmount, hx, ha]
    · simp [QtyCart.bumpFirst, hx] at hb
      simp [QtyCart.firstAmount, hx] at ha
      obtain ⟨ys, hys, rfl⟩ := hb
      simpa [QtyCart.firstAmount, hx] using ih ys hys ha

theorem QtyCart.bumpFirst_round_trip (itemId : Int) (l : List QtyCart.CartItem) (q : Int)
    (ha : QtyCart.firstAmount itemId l = some q) :
    (QtyCart.bumpFirst 1 itemId l).bind (QtyCart.bumpFirst (-1) itemId) = some l := by
  induction l with
  | nil => simp [QtyCart.firstAmount] at ha
  | cons x xs ih =>
    by_cases hx : x.id = itemId
    · cases x with
      | mk i a =>
        obtain rfl : i = itemId := hx
        simp [QtyCart.bumpFirst]
    · simp [QtyCart.firstAmount, hx] at ha
      have := ih ha
      cases hb : QtyCart.bumpFirst 1 itemId xs with
      | none => simp [hb] at this
      | some ys =>
        rw [hb] at this
        simp at this
        simp [QtyCart.bumpFirst, hx, hb, this]

theorem Cart.foldl_totals (l : List Cart.CartItem) : ∀ (a t : Int),
    l.foldl (fun acc item => (acc.1 + item.quantity, acc.2 + item.price * item.quantity)) (a, t) =
      (a + Cart.sumQty l, t + Cart.sumTotal l) := by
  induction l with
  | nil => intro a t; simp [Cart.sumQty, Cart.sumTotal]
  | cons x xs ih =>
    intro a t
    simp only [List.foldl_cons, ih]
    simp [Cart.sumQty, Cart.sumTotal]
    constructor <;> ring

/-- Claim C1: immediately after the `calculateTotals` transition, the
state's `amount` equals the sum of the items' quantities and its
`total` equals the sum of `price * quantity` over the items of the
resulting state. -/
theorem calculateTotals_invariant (s : Cart.CartState) :
    (Cart.calculateTotals s).amount = Cart.sumQty (Cart.calculateTotals s).cartItems ∧
    (Cart.calculateTotals s).total = Cart.sumTotal (Cart.calculateTotals s).cartItems := by
  have h := Cart.foldl_totals s.cartItems 0 0
  simp only [Cart.calculateTotals, h]
  constructor <;> simp

/-- Claim C2, counterexample: on a cart holding the single item
`{ id: 1, amount: 0 }`, `decrease(1)` succeeds and drives the quantity
to `-1` — it is not floored at 0, refuting "a decrease on an item whose
quantity is 0 leaves the quantity at 0". -/
theorem decrease_below_zero :
    QtyCart.decrease 1 { cartItems := [{ id := 1, amount := 0 }] } =
      some { cartItems := [{ id := 1, amount := -1 }] } ∧
    ((-1 : Int) < 0) := by
  decide

/-- Claim C2, amended: `decrease(id)` on a state whose first item with
that id has quantity `q` always yields quantity `q - 1` — it decrements
unconditionally, with no floor, so repeated application drives the
quantity negative. -/
theorem decrease_decrements (itemId : Int) (s s₂ : QtyCart.CartState) (q : Int)
    (ha : QtyCart.firstAmount itemId s.cartItems = some q)
    (hd : QtyCart.decrease itemId s = some s₂) :
    QtyCart.firstAmount itemId s₂.cartItems = some (q - 1) := by
  unfold QtyCart.decrease at hd
  cases hb : QtyCart.bumpFirst (-1) itemId s.cartItems with
  | none => rw [hb] at hd; simp at hd
  | some l₂ =>
    rw [hb] at hd
    simp at hd
    have := QtyCart.bumpFirst_firstAmount (-1) itemId s.cartItems l₂ q hb ha
    rw [← hd]
    simpa [sub_eq_add_neg] using this

/-- Witness for the amended C2 at a concrete input: a cart with item
`{ id: 1, amount: 0 }`; `decrease(1)` yields quantity `0 - 1 = -1`. -/
theorem decrease_decrements_witness :
    QtyCart.firstAmount 1
        (({ cartItems := [{ id := 1, amount := -1 }] } : QtyCart.CartState)).cartItems =
      some ((0 : Int) - 1) :=
  decrease_decrements 1 { cartItems := [{ id := 1, amount := 0 }] }
    { cartItems := [{ id := 1, amount := -1 }] } 0 (by decide) (by decide)

/-- Claim C3, counterexample: on a cart holding only item 1, the id 5 is
absent, and both `increase(5)` and `decrease(5)` evaluate to `none` —
the embedding of the TypeError thrown when `find` returns `undefined`
and the reducer dereferences it — not to the safe no-op
`some` of the unchanged state. -/
theorem increase_absent_throws :
    QtyCart.increase 5 { cartItems := [{ id := 1, amount := 2 }] } = none ∧
    QtyCart.decrease 5 { cartItems := [{ id := 1, amount := 2 }] } = none ∧
    QtyCart.increase 5 { cartItems := [{ id := 1, amount := 2 }] } ≠
      some { cartItems := [{ id := 1, amount := 2 }] } := by
  decide

/-- Claim C3, amended: whenever the id is absent from the cart,
`increase(id)` and `decrease(id)` both reach the error outcome (`none`,
the TypeError from dereferencing `undefined`); they are not safe
no-ops. -/
theorem increase_decrease_absent (itemId : Int) (s : QtyCart.CartState)
    (h : ∀ i ∈ s.cartItems, i.id ≠ itemId) :
    QtyCart.increase itemId s = none ∧ QtyCart.decrease itemId s = none := by
  constructor
  · unfold QtyCart.increase
    rw [QtyCart.bumpFirst_none_of_absent 1 itemId s.cartItems h]
    rfl
  · unfold QtyCart.decrease
    rw [QtyCart.bumpFirst_none_of_absent (-1) itemId s.cartItems h]
    rfl

/-- Witness for the amended C3 at a concrete input: id 5 absent from a
one-item cart. -/
theorem increase_decrease_absent_witness :
    QtyCart.increase 5 { cartItems := [{ id := 1, amount := 2 }] } = none ∧
    QtyCart.decrease 5 { cartItems := [{ id := 1, amount := 2 }] } = none :=
  increase_decrease_absent 5 { cartItems := [{ id := 1, amount := 2 }] } (by decide)

/-- Claim C4: dispatching an action whose kind is not one of the seven
recognized transitions returns the state unchanged and never throws:
stated for the slice reducer over the closed action vocabulary
(`unknown` branch) and for the in-source hand-written reducer of
`2.1.2` (any `type` other than `cart/increment` falls through to
`return state`). -/
theorem unknown_action_noop :
    (∀ (name : String) (s : Cart.CartState),
        Cart.cartReducer (Cart.Action.unknown name) s = s) ∧
    (∀ (a : ManualCart.CAction) (st : ManualCart.State),
        a.type ≠ "cart/increment" → ManualCart.cartReducer st a = st) := by
  constructor
  · intro name s
    rfl
  · intro a st h
    simp [ManualCart.cartReducer, h]

/-- Witness for C4 at a concrete input: the action type `cart/fly` is
not recognized by the hand-written reducer and leaves the state
unchanged. -/
theorem unknown_action_noop_witness :
    ManualCart.cartReducer ManualCart.initialState { type := "cart/fly" } =
      ManualCart.initialState :=
  unknown_action_noop.2 { type := "cart/fly" } ManualCart.initialState (by decide)

/-- Claim C5: `clearCart` is idempotent — applying it twice equals
applying it once — and the state it produces has an empty items list
and `amount = 0`. -/
theorem clearCart_idempotent (s : MiniCart.CartState) :
    MiniCart.clearCart (MiniCart.clearCart s) = MiniCart.clearCart s ∧
    (MiniCart.clearCart s).cartItems = [] ∧
    (MiniCart.clearCart s).amount = 0 :=
  ⟨rfl, rfl, rfl⟩

/-- Claim C6: on a cart whose first item with the given id has quantity
`q > 0`, `increase(id)` then `decrease(id)` both succeed and restore the
entire state, in particular that item's quantity is back to `q`
(round-trip law).  The positivity hypothesis is kept from the claim;
the round trip holds because `decrease` undoes exactly the `+1`. -/
theorem increase_decrease_round_trip (itemId : Int) (s : QtyCart.CartState) (q : Int)
    (ha : QtyCart.firstAmount itemId s.cartItems = some q)
    (_hq : 0 < q) :
    ∃ s₂, (QtyCart.increase itemId s).bind (QtyCart.decrease itemId) = some s₂ ∧
      s₂ = s ∧ QtyCart.firstAmount itemId s₂.cartItems = some q := by
  refine ⟨s, ?_, rfl, ha⟩
  have hrt := QtyCart.bumpFirst_round_trip itemId s.cartItems q ha
  cases hb : QtyCart.bumpFirst 1 itemId s.cartItems with
  | none => rw [hb] at hrt; simp at hrt
  | some ys =>
    rw [hb] at hrt
    simp at hrt
    simp [QtyCart.increase, QtyCart.decrease, hb, hrt]

/-- Witness for C6 at a concrete input: cart `[{ id: 1, amount: 2 }]`,
`increase(1)` then `decrease(1)` restores the state. -/
theorem increase_decrease_round_trip_witness :
    ∃ s₂, (QtyCart.increase 1 { cartItems := [{ id := 1, amount := 2 }] }).bind
        (QtyCart.decrease 1) = some s₂ ∧
      s₂ = ({ cartItems := [{ id := 1, amount := 2 }] } : QtyCart.CartState) ∧
      QtyCart.firstAmount 1 s₂.cartItems = some 2 :=
  increase_decrease_round_trip 1 { cartItems := [{ id := 1, amount := 2 }] } 2
    (by decide) (by decide)

/-- Claim C7, counterexample: on the state `{ cartItems: [], amount: 5 }`
the id `1` is absent, yet `removeItem(1)` changes `amount` (it reassigns
`amount` to the length of the filtered list, here `0 ≠ 5`), so the claim
"amount ... unchanged" is false as stated. -/
theorem removeItem_absent_changes_amount :
    (MiniCart.removeItem 1 { cartItems := [], amount := 5 }).cartItems =
      (({ cartItems := [], amount := 5 } : MiniCart.CartState)).cartItems ∧
    (MiniCart.removeItem 1 { cartItems := [], amount := 5 }).amount ≠
      (({ cartItems := [], amount := 5 } : MiniCart.CartState)).amount := by
  decide

/-- Claim C7, amended: `removeItem(id)` on an absent id leaves the items
list unchanged and sets `amount` to the length of that (unchanged) items
list; it is unchanged only when `amount` already equalled that length.
(This slice has no `total` field, so no `total` is touched.) -/
theorem removeItem_absent_frame (itemId : Int) (s : MiniCart.CartState)
    (h : ∀ i ∈ s.cartItems, i.id ≠ itemId) :
    (MiniCart.removeItem itemId s).cartItems = s.cartItems ∧
    (MiniCart.removeItem itemId s).amount = (s.cartItems.length : Int) := by
  have hfilter : s.cartItems.filter (fun item => item.id != itemId) = s.cartItems := by
    apply List.filter_eq_self.mpr
    intro a ha
    simpa using h a ha
  constructor
  · simp [MiniCart.removeItem, hfilter]
  · simp [MiniCart.removeItem, hfilter]

/-- Witness for the amended C7 at a concrete input: the cart holding only
item 1, with `removeItem(7)` (id 7 absent). -/
theorem removeItem_absent_frame_witness :
    (MiniCart.removeItem 7 { cartItems := [{ id := 1, title := "Laptop", price := 999 }], amount := 1 }).cartItems =
      [{ id := 1, title := "Laptop", price := 999 }] ∧
    (MiniCart.removeItem 7 { cartItems := [{ id := 1, title := "Laptop", price := 999 }], amount := 1 }).amount = 1 :=
  removeItem_absent_frame 7
    { cartItems := [{ id := 1, title := "Laptop", price := 999 }], amount := 1 }
    (by decide)

/-- Claim C8: the initial cart state of the application's slice has an
empty items list, `amount = 0`, `total = 0` and `isLoading = true`. -/
theorem initialState_fields :
    Cart.initialState.cartItems = [] ∧ Cart.initialState.amount = 0 ∧
    Cart.initialState.total = 0 ∧ Cart.initialState.isLoading = true :=
  ⟨rfl, rfl, rfl, rfl⟩

/-- Claim C9: on the Async Loader's rejected outcome the dispatched
transition (`setLoading(false)` in the spec's modelling; the
`fetchRejected` handler in the in-source `extraReducers` example)
yields a state with `isLoading = false` and the item collection exactly
as before the load; both handlers are total functions, so no exception
reaches the Store. -/
theorem load_rejected_clears_loading :
    (∀ s : Cart.CartState,
        (Cart.setLoading false s).isLoading = false ∧
        (Cart.setLoading false s).cartItems = s.cartItems ∧
        (Cart.setLoading false s).amount = s.amount ∧
        (Cart.setLoading false s).total = s.total) ∧
    (∀ (p : String) (u : UserSlice.UState),
        (UserSlice.fetchRejected p u).isLoading = false ∧
        (UserSlice.fetchRejected p u).users = u.users) :=
  ⟨fun _ => ⟨rfl, rfl, rfl, rfl⟩, fun _ _ => ⟨rfl, rfl⟩⟩

/-- Claim C10: in the `part_009` slice, `amount` counts line items:
`amount = length cartItems` holds after `clearCart`, and `removeItem`
preserves it from any state in which it holds (in fact `removeItem`
re-establishes it unconditionally, since it assigns
`amount = cartItems.length`). -/
theorem amount_counts_lines (s : MiniCart.CartState) (itemId : Int) :
    (MiniCart.clearCart s).amount = ((MiniCart.clearCart s).cartItems.length : Int) ∧
    (s.amount = (s.cartItems.length : Int) →
      (MiniCart.removeItem itemId s).amount =
        ((MiniCart.removeItem itemId s).cartItems.length : Int)) :=
  ⟨rfl, fun _ => rfl⟩

/-- Witness for C10 at a concrete input: the slice's own `initialState`
(where `amount = 2 = length cartItems`) with `removeItem(2)`. -/
theorem amount_counts_lines_witness :
    (MiniCart.removeItem 2 MiniCart.initialState).amount =
      ((MiniCart.removeItem 2 MiniCart.initialState).cartItems.length : Int) :=
  (amount_counts_lines MiniCart.initialState 2).2 (by decide)
